import Mathlib

/-!
Shallow embedding of the Travel_companion repository's service layer
(weather_service.py and agents.py) and proofs about its specification.

Strings are Lean `String`s; Python floats carrying temperatures and
precipitation are modelled as exact rationals `ℚ` (every comparison in the
source is against a small decimal literal, so ordering behaviour agrees);
Python code that can raise is modelled with `Option`/`Except`.
-/

namespace TravelCompanion

/-! ## String helpers: Python `str.lower()` and the `in` substring test -/

/-- Python `str.lower()` restricted to the per-character lowering Lean
provides (identical on ASCII, which is all the source compares against). -/
def lowerStr (s : String) : String := String.mk (s.data.map Char.toLower)

/-- Bool test that `pat` occurs as a contiguous substring, as Python
`pat in s` on strings. -/
def hasSubstrList (pat : List Char) : List Char → Bool
  | [] => pat.isEmpty
  | c :: t => pat.isPrefixOf (c :: t) || hasSubstrList pat t

/-- Python `pat in s` for strings. -/
def strContains (s pat : String) : Bool := hasSubstrList pat.data s.data

/-! ## weather_service.py : clothing recommendations -/

def heavyWinterClothing : List String :=
  ["Heavy winter coat", "Thermal underlayers",
   "Winter hat", "Gloves", "Scarf", "Insulated boots"]

def winterClothing : List String :=
  ["Winter coat", "Sweater/layers",
   "Light gloves", "Warm hat"]

def lightJacketClothing : List String :=
  ["Light jacket or coat", "Long sleeves",
   "Light scarf", "Closed-toe shoes"]

def lightLayersClothing : List String :=
  ["Light layers", "Long or short sleeves",
   "Light pants or long shorts"]

def breathableClothing : List String :=
  ["Light breathable clothing", "Short sleeves",
   "Shorts or light pants", "Sun hat"]

/-- The temperature-based branch of `get_clothing_recommendations`
(weather_service.py lines 113-138): an if/elif/elif/elif/else chain. -/
def tempBaseClothing (temp_c : ℚ) : List String :=
  if temp_c < 0 then heavyWinterClothing
  else if temp_c < 10 then winterClothing
  else if temp_c < 20 then lightJacketClothing
  else if temp_c < 25 then lightLayersClothing
  else breathableClothing

/-- The condition-based branch of `get_clothing_recommendations`
(weather_service.py lines 140-149): an if/elif/elif/elif chain on the
lower-cased condition text. -/
def conditionExtras (condition : String) : List String :=
  let c := lowerStr condition
  if strContains c "rain" || strContains c "drizzle" || strContains c "shower" then
    ["Waterproof jacket", "Umbrella", "Waterproof shoes"]
  else if strContains c "snow" then
    ["Waterproof boots", "Snow-appropriate outerwear"]
  else if strContains c "sun" || strContains c "clear" then
    ["Sunglasses", "Sunscreen", "Brimmed hat"]
  else if strContains c "wind" then
    ["Windbreaker"]
  else []

/-- `WeatherService.get_clothing_recommendations` (weather_service.py
lines 100-151): the temperature-tier base wardrobe followed by the
condition-keyed additions. -/
def get_clothing_recommendations (temp_c : ℚ) (condition : String) : List String :=
  tempBaseClothing temp_c ++ conditionExtras condition

/-- Modelled from the spec for comparison with `tempBaseClothing`: the
five-tier bucket written as explicit non-overlapping intervals with each
boundary {0,10,20,25} assigned to the higher tier. -/
def specTierClothing (t : ℚ) : List String :=
  if t < 0 then heavyWinterClothing
  else if 0 ≤ t ∧ t < 10 then winterClothing
  else if 10 ≤ t ∧ t < 20 then lightJacketClothing
  else if 20 ≤ t ∧ t < 25 then lightLayersClothing
  else breathableClothing

/-! ## weather_service.py : activity recommendations -/

structure ForecastDayInfo where
  date : String
  condition : String
  maxtemp_c : ℚ
  mintemp_c : ℚ
  totalprecip_mm : ℚ
deriving Repr, DecidableEq

def indoorAlternatives : List String :=
  ["Museum visits", "Indoor shopping", "Local food tour",
   "Cooking classes", "Spa treatments", "Art galleries",
   "Local theaters or performances", "Indoor markets"]

def generalOutdoor : List String :=
  ["Sightseeing tours", "Walking tours", "Outdoor dining",
   "Parks and gardens", "Photography walks"]

def beachActivities : List String :=
  ["Beach activities", "Outdoor swimming",
   "Boat tours", "Outdoor cafes"]

def hikingActivities : List String :=
  ["Hiking", "Biking tours", "Outdoor markets",
   "Wildlife watching", "Picnics"]

def winterActivities : List String :=
  ["Winter sports", "Scenic drives",
   "Hot springs (if available)"]

structure ActivityRecs where
  recommended : List String
  alternatives : List String
deriving Repr, DecidableEq

/-- `WeatherService.get_activity_recommendations` (weather_service.py
lines 153-203). -/
def get_activity_recommendations (fd : ForecastDayInfo) : ActivityRecs :=
  let condition := lowerStr fd.condition
  let avg_temp := (fd.maxtemp_c + fd.mintemp_c) / 2
  let outdoor_activities : List String :=
    if fd.totalprecip_mm < 5 ∧ strContains condition "rain" = false
        ∧ strContains condition "storm" = false then
      generalOutdoor ++
        (if avg_temp > 20 then beachActivities
         else if avg_temp > 10 then hikingActivities
         else winterActivities)
    else []
  { recommended := if outdoor_activities = [] then indoorAlternatives else outdoor_activities
    alternatives := if outdoor_activities = [] then [] else indoorAlternatives }

/-! ## weather_service.py : conditions summary -/

/-- One step of building the Python dict `condition_counts`
(weather_service.py lines 272-274): keys stay in insertion order. -/
def bumpCount (counts : List (String × ℕ)) (c : String) : List (String × ℕ) :=
  match counts with
  | [] => [(c, 1)]
  | (k, n) :: rest => if k = c then (k, n + 1) :: rest else (k, n) :: bumpCount rest c

/-- The dict `condition_counts` as an insertion-ordered association list. -/
def conditionCounts (conditions : List String) : List (String × ℕ) :=
  conditions.foldl bumpCount []

/-- Insert one entry behind every existing entry of count at least its own;
the left-to-right fold below then reproduces Python
`sorted(items, key=count, reverse=True)`, which is stable. -/
def insertByCountDesc (p : String × ℕ) : List (String × ℕ) → List (String × ℕ)
  | [] => [p]
  | q :: qs => if p.2 ≤ q.2 then q :: insertByCountDesc p qs else p :: q :: qs

/-- Stable sort by count, descending (weather_service.py lines 277-281). -/
def sortByCountDesc (l : List (String × ℕ)) : List (String × ℕ) :=
  l.foldl (fun acc p => insertByCountDesc p acc) []

def commaJoin (l : List String) : String := String.intercalate ", " l

/-- `WeatherService._summarize_conditions` (weather_service.py lines
261-295).  On the empty input the source raises IndexError at
`sorted_conditions[0]`, modelled as `none`. -/
def summarize_conditions (conditions : List String) : Option String :=
  let total_days := conditions.length
  match sortByCountDesc (conditionCounts conditions) with
  | [] => none
  | [(c, _)] => some ("Consistently " ++ c ++ " throughout your trip")
  | (main_condition, main_count) :: rest =>
    if ((main_count : ℚ) / (total_days : ℚ)) ≥ 1/2 then
      some ("Mostly " ++ main_condition ++ " with some " ++ commaJoin (rest.map Prod.fst))
    else
      some ("Variable conditions including " ++
        commaJoin ((((main_condition, main_count) :: rest).take 3).map Prod.fst))

/-- The distinct conditions in first-encounter order (spec-level notion used
to state claims about `summarize_conditions`). -/
def distinctInOrder (conditions : List String) : List String :=
  conditions.foldl (fun acc c => if c ∈ acc then acc else acc ++ [c]) []

/-! ## weather_service.py : format_weather_summary -/

structure ForecastLocation where
  name : String
  country : String
deriving Repr, DecidableEq

structure Forecast where
  location : ForecastLocation
  forecastday : List ForecastDayInfo
deriving Repr, DecidableEq

structure DailyRecommendation where
  date : String
  condition : String
  max_temp_c : ℚ
  min_temp_c : ℚ
  clothing_recommendations : List String
  activity_recommendations : List String
  alternative_activities : List String
deriving Repr, DecidableEq

structure WeatherSummary where
  location : String
  forecast_days : ℕ
  avg_max_temp_c : ℚ
  avg_min_temp_c : ℚ
  conditions_summary : String
  daily_forecasts : List DailyRecommendation
deriving Repr, DecidableEq

/-- The per-day record built in the loop of `format_weather_summary`
(weather_service.py lines 221-243); clothing is keyed on the midpoint of
max and min temperature. -/
def buildDaily (fd : ForecastDayInfo) : DailyRecommendation :=
  let activities := get_activity_recommendations fd
  { date := fd.date
    condition := fd.condition
    max_temp_c := fd.maxtemp_c
    min_temp_c := fd.mintemp_c
    clothing_recommendations :=
      get_clothing_recommendations ((fd.maxtemp_c + fd.mintemp_c) / 2) fd.condition
    activity_recommendations := activities.recommended
    alternative_activities := activities.alternatives }

/-- `WeatherService.format_weather_summary` (weather_service.py lines
205-259).  When no day is selected, `sum(max_temps) / len(max_temps)`
raises ZeroDivisionError in the source; that is modelled as `none`.
`summarize_conditions` is likewise propagated through `Option`, though on
a non-empty selection it never fails. -/
def format_weather_summary (forecast : Forecast) (duration : ℕ) : Option WeatherSummary :=
  let actual_days := min duration forecast.forecastday.length
  let daily_forecasts := (forecast.forecastday.take actual_days).map buildDaily
  let conditions := daily_forecasts.map (fun d => d.condition)
  let max_temps := daily_forecasts.map (fun d => d.max_temp_c)
  let min_temps := daily_forecasts.map (fun d => d.min_temp_c)
  if daily_forecasts.length = 0 then none
  else
    (summarize_conditions conditions).map fun cs =>
      { location := forecast.location.name ++ ", " ++ forecast.location.country
        forecast_days := actual_days
        avg_max_temp_c := max_temps.sum / (max_temps.length : ℚ)
        avg_min_temp_c := min_temps.sum / (min_temps.length : ℚ)
        conditions_summary := cs
        daily_forecasts := daily_forecasts }

/-! ## agents.py / weather_service.py : location validation -/

/-- Outcome of the provider call made by `get_basic_location_data`
(weather_service.py lines 34-37): either a `requests.RequestException`
or the JSON array of location matches. -/
inductive ProviderResponse where
  | failure (msg : String)
  | results (found : List String)
deriving Repr, DecidableEq

inductive BasicLocationData where
  | error (msg : String)
  | location (firstMatch : String)
deriving Repr, DecidableEq

/-- `WeatherService.get_basic_location_data` (weather_service.py lines
18-45), as a function of the provider response. -/
def get_basic_location_data (loc : String) (resp : ProviderResponse) : BasicLocationData :=
  match resp with
  | .failure e => .error ("Location validation failed: " ++ e)
  | .results [] => .error ("Location " ++ loc ++ " not found")
  | .results (m :: _) => .location m

structure ValidationVerdict where
  valid : Bool
  reason : Option String
deriving Repr, DecidableEq

/-- `WeatherService.validate_location` (weather_service.py lines 47-63). -/
def service_validate_location (loc : String) (resp : ProviderResponse) : ValidationVerdict :=
  match get_basic_location_data loc resp with
  | .error msg => { valid := false, reason := some msg }
  | .location _ => { valid := true, reason := none }

/-- `WebSearchAgent.validate_location` (agents.py lines 23-37):
`validation_result.get("valid", False)`; the verdict dict always carries
the "valid" key, so this reads the `valid` field. -/
def agent_validate_location (loc : String) (resp : ProviderResponse) : Bool :=
  (service_validate_location loc resp).valid

/-! ## agents.py : web search -/

structure SearchResultR where
  title : String
  link : String
  snippet : String
  sourceName : String
deriving Repr, DecidableEq

/-- One raw item of the provider's `organic_results`; each field may be
absent. -/
structure RawSearchItem where
  title : Option String
  link : Option String
  snippet : Option String
  sourceName : Option String
deriving Repr, DecidableEq

/-- The dict comprehension of `perform_web_search` (agents.py lines
59-67): extract title/link/snippet/source, defaulting missing fields to
the empty string. -/
def extract_search_item (r : RawSearchItem) : SearchResultR :=
  { title := r.title.getD ""
    link := r.link.getD ""
    snippet := r.snippet.getD ""
    sourceName := r.sourceName.getD "" }

/-- Outcome of the transport call made by `perform_web_search`: a
`requests.RequestException` or the parsed `organic_results`. -/
inductive SearchTransport where
  | failure (msg : String)
  | ok (organicResults : List RawSearchItem)
deriving Repr, DecidableEq

/-- `WebSearchAgent.perform_web_search` (agents.py lines 39-72) as a
function of whether the API key is configured and of the transport
outcome.  A missing key raises ValueError (`Except.error`); a transport
failure is swallowed into the empty list. -/
def perform_web_search (keyPresent : Bool) (resp : SearchTransport) :
    Except String (List SearchResultR) :=
  if keyPresent = false then .error "SerpAPI key is required for web search"
  else
    match resp with
    | .failure _ => .ok []
    | .ok rs => .ok (rs.map extract_search_item)

/-! ## agents.py : itinerary orchestration -/

structure TravelRequest where
  source : String
  destination : String
  budget : ℕ
  duration : ℕ
  interests : List String
  accommodation : String
  dietary : String
deriving Repr, DecidableEq

/-- The outbound calls `generate_comprehensive_itinerary` can make, in
order of occurrence; recorded so that short-circuiting claims can speak
about which calls happen. -/
inductive AgentCall where
  | validate (loc : String)
  | webSearch (query : String) (numResults : ℕ)
  | weather (destination : String) (duration : ℕ)
  | generate
deriving Repr, DecidableEq

/-- The environment of external collaborators of the agent: location
validation outcome, web search outcome (after error swallowing),
weather fetch and summarization outcome (`Except.error` when
`get_weather_data` returns its error dict), and the generator outcome
(`Except.error` when `model.generate_content` raises).  The generator
receives the data that agents.py interpolates into its prompt. -/
structure AgentEnv where
  validateResult : String → Bool
  searchResult : String → ℕ → List SearchResultR
  weatherResult : String → ℕ → Except String WeatherSummary
  generateResult : TravelRequest → Except String WeatherSummary →
    List SearchResultR → List SearchResultR → Except String String

inductive ItineraryOutcome where
  | failure (error : String) (details : String)
  | success (ai_generated_itinerary : String)
      (web_search_context : List SearchResultR)
      (weather_data : Except String WeatherSummary)
      (transport_options : List SearchResultR)
deriving Repr

def guideQuery (req : TravelRequest) : String :=
  "Best travel guide for " ++ req.destination ++ " " ++ String.intercalate " " req.interests

def transportQuery (source destination : String) : String :=
  "How to travel from " ++ source ++ " to " ++ destination ++ " transportation options"

/-- `WebSearchAgent.generate_comprehensive_itinerary` (agents.py lines
119-215), returning the outcome together with the trace of outbound
calls in the order the source makes them.  An absent `source` is the
empty string, which is falsy in Python. -/
def generate_comprehensive_itinerary (env : AgentEnv) (req : TravelRequest) :
    ItineraryOutcome × List AgentCall :=
  let source := req.source
  let destination := req.destination
  if env.validateResult destination = false then
    (.failure "Invalid destination"
        (destination ++ " does not appear to be a valid location"),
      [.validate destination])
  else if source ≠ "" ∧ env.validateResult source = false then
    (.failure "Invalid source location"
        (source ++ " does not appear to be a valid location"),
      [.validate destination, .validate source])
  else
    let web_results := env.searchResult (guideQuery req) 5
    let transport_options :=
      if source ≠ "" then env.searchResult (transportQuery source destination) 3 else []
    let weather_data := env.weatherResult destination req.duration
    let calls : List AgentCall :=
      [.validate destination]
        ++ (if source ≠ "" then [.validate source] else [])
        ++ [.webSearch (guideQuery req) 5]
        ++ (if source ≠ "" then [.webSearch (transportQuery source destination) 3] else [])
        ++ [.weather destination req.duration, .generate]
    match env.generateResult req weather_data web_results transport_options with
    | .ok text =>
      (.success text web_results weather_data (if source ≠ "" then transport_options else []),
        calls)
    | .error e => (.failure "Itinerary generation failed" e, calls)

/-! ## Helper lemmas -/

lemma tempBase_eq_specTier (t : ℚ) : tempBaseClothing t = specTierClothing t := by
  unfold tempBaseClothing specTierClothing
  by_cases h0 : t < 0
  · simp [h0]
  · have h0' : 0 ≤ t := le_of_not_lt h0
    by_cases h10 : t < 10
    · simp [h0, h0', h10]
    · have h10' : 10 ≤ t := le_of_not_lt h10
      by_cases h20 : t < 20
      · simp [h0, h0', h10, h10', h20]
      · have h20' : 20 ≤ t := le_of_not_lt h20
        by_cases h25 : t < 25
        · simp [h0, h0', h10, h10', h20, h20', h25]
        · simp [h0, h0', h10, h10', h20, h20', h25]

lemma tempBaseClothing_ne_nil (t : ℚ) : tempBaseClothing t ≠ [] := by
  unfold tempBaseClothing
  split_ifs <;> decide

lemma windbreaker_not_in_tempBase (t : ℚ) : "Windbreaker" ∉ tempBaseClothing t := by
  unfold tempBaseClothing
  split_ifs <;> decide

/-- The characterization of `get_activity_recommendations` by the
good-weather classification. -/
lemma activity_cases (fd : ForecastDayInfo) :
    (fd.totalprecip_mm < 5 ∧ strContains (lowerStr fd.condition) "rain" = false
        ∧ strContains (lowerStr fd.condition) "storm" = false →
      get_activity_recommendations fd =
        { recommended := generalOutdoor ++
            (if (fd.maxtemp_c + fd.mintemp_c) / 2 > 20 then beachActivities
             else if (fd.maxtemp_c + fd.mintemp_c) / 2 > 10 then hikingActivities
             else winterActivities)
          alternatives := indoorAlternatives })
    ∧ (¬(fd.totalprecip_mm < 5 ∧ strContains (lowerStr fd.condition) "rain" = false
        ∧ strContains (lowerStr fd.condition) "storm" = false) →
      get_activity_recommendations fd =
        { recommended := indoorAlternatives, alternatives := [] }) := by
  constructor
  · intro h
    have hne : generalOutdoor ++
        (if (fd.maxtemp_c + fd.mintemp_c) / 2 > 20 then beachActivities
         else if (fd.maxtemp_c + fd.mintemp_c) / 2 > 10 then hikingActivities
         else winterActivities) ≠ [] := by
      simp [generalOutdoor]
    simp only [get_activity_recommendations, if_pos h, if_neg hne]
  · intro h
    simp only [get_activity_recommendations, if_neg h]
    simp

/-! ## Claim theorems -/

/-- Claim C1, counterexample.  The condition-keyed additions in
`get_clothing_recommendations` are an if/elif chain, not additive: for the
condition "Light Rain and Wind" the rain branch fires and the wind branch
is never reached, so "Windbreaker" is absent even though "wind" occurs in
the lower-cased condition text. -/
theorem claim1_counterexample :
    "Waterproof jacket" ∈ get_clothing_recommendations 15 "Light Rain and Wind"
    ∧ strContains (lowerStr "Light Rain and Wind") "wind" = true
    ∧ "Windbreaker" ∉ get_clothing_recommendations 15 "Light Rain and Wind" := by
  decide

/-- Claim C1, amended.  Condition-keyed additions use case-insensitive
substring matching but the keyword groups are mutually exclusive, tried
in the order rain/drizzle/shower, snow, sun/clear, wind; whenever "rain"
occurs in the lower-cased condition text only the waterproof-gear items
are added.  In particular, for any temperature, the result for
"Light Rain and Wind" includes the waterproof-gear items and does not
include "Windbreaker". -/
theorem claim1_amended_thm :
    (∀ cond : String, strContains (lowerStr cond) "rain" = true →
      conditionExtras cond = ["Waterproof jacket", "Umbrella", "Waterproof shoes"])
    ∧ (∀ t : ℚ,
        "Waterproof jacket" ∈ get_clothing_recommendations t "Light Rain and Wind"
        ∧ "Umbrella" ∈ get_clothing_recommendations t "Light Rain and Wind"
        ∧ "Waterproof shoes" ∈ get_clothing_recommendations t "Light Rain and Wind"
        ∧ "Windbreaker" ∉ get_clothing_recommendations t "Light Rain and Wind") := by
  constructor
  · intro cond h
    simp [conditionExtras, h]
  · intro t
    have hext : conditionExtras "Light Rain and Wind" =
        ["Waterproof jacket", "Umbrella", "Waterproof shoes"] := by decide
    unfold get_clothing_recommendations
    rw [hext]
    refine ⟨?_, ?_, ?_, ?_⟩
    · exact List.mem_append_right _ (by decide)
    · exact List.mem_append_right _ (by decide)
    · exact List.mem_append_right _ (by decide)
    · intro hmem
      rcases List.mem_append.mp hmem with hl | hr
      · exact windbreaker_not_in_tempBase t hl
      · simp at hr

/-- Claim C1, witness for the amended theorem at a concrete condition. -/
theorem claim1_witness :
    strContains (lowerStr "Light Rain and Wind") "rain" = true
    ∧ conditionExtras "Light Rain and Wind" =
        ["Waterproof jacket", "Umbrella", "Waterproof shoes"] :=
  ⟨by decide, claim1_amended_thm.1 "Light Rain and Wind" (by decide)⟩

/-- Claim C2.  The temperature tiers of `get_clothing_recommendations`,
keyed on the midpoint of max and min temperature, form a partition with
boundaries 0, 10, 20, 25 assigned to the higher tier: the code's
if/elif chain equals the explicit-interval tiering `specTierClothing`,
each interval yields its fixed wardrobe list, and t = 19.9 falls in the
light-jacket ("<20") tier while t = 20 falls in the light-layers ("<25")
tier. -/
theorem claim2_thm :
    (∀ (t : ℚ) (cond : String),
      get_clothing_recommendations t cond = specTierClothing t ++ conditionExtras cond)
    ∧ (∀ fd : ForecastDayInfo, (buildDaily fd).clothing_recommendations =
        get_clothing_recommendations ((fd.maxtemp_c + fd.mintemp_c) / 2) fd.condition)
    ∧ (∀ t : ℚ,
        (t < 0 → specTierClothing t = heavyWinterClothing)
        ∧ (0 ≤ t → t < 10 → specTierClothing t = winterClothing)
        ∧ (10 ≤ t → t < 20 → specTierClothing t = lightJacketClothing)
        ∧ (20 ≤ t → t < 25 → specTierClothing t = lightLayersClothing)
        ∧ (25 ≤ t → specTierClothing t = breathableClothing))
    ∧ specTierClothing (199/10) = lightJacketClothing
    ∧ specTierClothing 20 = lightLayersClothing := by
  refine ⟨?_, ?_, ?_, ?_, ?_⟩
  · intro t cond
    unfold get_clothing_recommendations
    rw [tempBase_eq_specTier]
  · intro fd
    rfl
  · intro t
    refine ⟨?_, ?_, ?_, ?_, ?_⟩
    · intro h
      simp [specTierClothing, h]
    · intro h0 h10
      simp [specTierClothing, not_lt.mpr h0, h0, h10]
    · intro h10 h20
      simp [specTierClothing, not_lt.mpr (le_trans (by norm_num : (0:ℚ) ≤ 10) h10),
        not_lt.mpr h10, h10, h20]
    · intro h20 h25
      simp [specTierClothing, not_lt.mpr (le_trans (by norm_num : (0:ℚ) ≤ 20) h20),
        not_lt.mpr (le_trans (by norm_num : (10:ℚ) ≤ 20) h20),
        not_lt.mpr h20, h20, h25]
    · intro h25
      simp [specTierClothing, not_lt.mpr (le_trans (by norm_num : (0:ℚ) ≤ 25) h25),
        not_lt.mpr (le_trans (by norm_num : (10:ℚ) ≤ 25) h25),
        not_lt.mpr (le_trans (by norm_num : (20:ℚ) ≤ 25) h25),
        not_lt.mpr h25]
  · norm_num [specTierClothing]
  · norm_num [specTierClothing]

/-- Claim C2, witness: the boundary examples instantiated through the
theorem. -/
theorem claim2_witness :
    (10 ≤ (199/10 : ℚ) ∧ (199/10 : ℚ) < 20)
    ∧ specTierClothing (199/10) = lightJacketClothing
    ∧ (20 ≤ (20 : ℚ) ∧ (20 : ℚ) < 25)
    ∧ specTierClothing 20 = lightLayersClothing :=
  ⟨⟨by norm_num, by norm_num⟩,
   (claim2_thm.2.2.1 (199/10)).2.2.1 (by norm_num) (by norm_num),
   ⟨by norm_num, by norm_num⟩,
   (claim2_thm.2.2.1 20).2.2.2.1 (by norm_num) (by norm_num)⟩

/-- Claim C3.  A day is classified good weather iff precipitation is
below 5 mm and the lower-cased condition text contains neither "rain"
nor "storm"; on good days the recommendation is the general outdoor list
plus the temperature tier (average above 20 gives beach/water, above 10
hiking/biking, else winter/scenic) with the fixed indoor list as
alternatives, on other days the recommendation is the fixed indoor list
with empty alternatives; precipitation 4.9 with condition
"Partly cloudy" is good weather and precipitation 6 with the same
condition is not, for every temperature. -/
theorem claim3_thm : ∀ fd : ForecastDayInfo,
    (fd.totalprecip_mm < 5 ∧ strContains (lowerStr fd.condition) "rain" = false
        ∧ strContains (lowerStr fd.condition) "storm" = false →
      get_activity_recommendations fd =
        { recommended := generalOutdoor ++
            (if (fd.maxtemp_c + fd.mintemp_c) / 2 > 20 then beachActivities
             else if (fd.maxtemp_c + fd.mintemp_c) / 2 > 10 then hikingActivities
             else winterActivities)
          alternatives := indoorAlternatives })
    ∧ (¬(fd.totalprecip_mm < 5 ∧ strContains (lowerStr fd.condition) "rain" = false
        ∧ strContains (lowerStr fd.condition) "storm" = false) →
      get_activity_recommendations fd =
        { recommended := indoorAlternatives, alternatives := [] })
    ∧ (∀ mx mn : ℚ,
        (get_activity_recommendations ⟨fd.date, "Partly cloudy", mx, mn, 49/10⟩).alternatives
          = indoorAlternatives
        ∧ get_activity_recommendations ⟨fd.date, "Partly cloudy", mx, mn, 6⟩
          = { recommended := indoorAlternatives, alternatives := [] }) := by
  intro fd
  refine ⟨(activity_cases fd).1, (activity_cases fd).2, ?_⟩
  intro mx mn
  constructor
  · have hgood : ((49/10 : ℚ) < 5 ∧
        strContains (lowerStr "Partly cloudy") "rain" = false
        ∧ strContains (lowerStr "Partly cloudy") "storm" = false) :=
      ⟨by norm_num, by decide, by decide⟩
    have h := (activity_cases ⟨fd.date, "Partly cloudy", mx, mn, 49/10⟩).1 hgood
    rw [h]
  · exact (activity_cases ⟨fd.date, "Partly cloudy", mx, mn, 6⟩).2
      (fun h => absurd h.1 (by norm_num))

/-- Claim C3, witness at a concrete forecast day. -/
theorem claim3_witness :
    ((49/10 : ℚ) < 5 ∧ strContains (lowerStr "Partly cloudy") "rain" = false
      ∧ strContains (lowerStr "Partly cloudy") "storm" = false)
    ∧ get_activity_recommendations ⟨"2025-01-01", "Partly cloudy", 30, 20, 49/10⟩ =
        { recommended := generalOutdoor ++ beachActivities
          alternatives := indoorAlternatives } := by
  have hgood : ((49/10 : ℚ) < 5 ∧
      strContains (lowerStr "Partly cloudy") "rain" = false
      ∧ strContains (lowerStr "Partly cloudy") "storm" = false) :=
    ⟨by norm_num, by decide, by decide⟩
  refine ⟨hgood, ?_⟩
  have h := (claim3_thm ⟨"2025-01-01", "Partly cloudy", 30, 20, 49/10⟩).1 hgood
  rw [h]
  norm_num

/-- Claim C10.  For every temperature and condition the clothing list is
non-empty (a temperature-tier base wardrobe is always included), and for
every forecast day the recommended-activities list is non-empty (the
fixed indoor list serves as fallback). -/
theorem claim10_thm :
    (∀ (t : ℚ) (cond : String), get_clothing_recommendations t cond ≠ [])
    ∧ (∀ fd : ForecastDayInfo, (get_activity_recommendations fd).recommended ≠ []) := by
  constructor
  · intro t cond hc
    exact tempBaseClothing_ne_nil t (List.append_eq_nil.mp hc).1
  · intro fd
    by_cases h : fd.totalprecip_mm < 5 ∧ strContains (lowerStr fd.condition) "rain" = false
        ∧ strContains (lowerStr fd.condition) "storm" = false
    · rw [(activity_cases fd).1 h]
      simp [generalOutdoor]
    · rw [(activity_cases fd).2 h]
      decide

/-- Claim C8.  `validate_location` returns false both when the provider
returns an empty result set and when the provider call fails with a
transport error, never raising (it is a total function into Bool), and
returns true exactly when the provider returns at least one match. -/
theorem claim8_thm : ∀ loc : String,
    (∀ msg, agent_validate_location loc (.failure msg) = false)
    ∧ agent_validate_location loc (.results []) = false
    ∧ (∀ resp, agent_validate_location loc resp = true ↔
        ∃ m ms, resp = .results (m :: ms)) := by
  intro loc
  refine ⟨fun msg => rfl, rfl, fun resp => ?_⟩
  cases resp with
  | failure msg =>
    simp [agent_validate_location, service_validate_location, get_basic_location_data]
  | results found =>
    cases found with
    | nil =>
      simp [agent_validate_location, service_validate_location, get_basic_location_data]
    | cons m ms =>
      simp only [agent_validate_location, service_validate_location,
        get_basic_location_data]
      constructor
      · intro _
        exact ⟨m, ms, rfl⟩
      · intro _
        trivial

/-- Claim C9.  `perform_web_search` swallows transport failures into the
empty result list; on success it extracts, per provider item in provider
order (no deduplication or re-ranking), exactly the four fields
title/link/snippet/source, each defaulting to the empty string when
missing. -/
theorem claim9_thm :
    (∀ msg, perform_web_search true (.failure msg) = .ok [])
    ∧ (∀ rs : List RawSearchItem,
        perform_web_search true (.ok rs) = .ok (rs.map extract_search_item)
        ∧ (rs.map extract_search_item).length = rs.length
        ∧ ∀ i : ℕ, (rs.map extract_search_item)[i]? =
            rs[i]?.map extract_search_item)
    ∧ extract_search_item ⟨none, some "L", none, some "S"⟩ =
        ⟨"", "L", "", "S"⟩ := by
  refine ⟨fun msg => rfl, fun rs => ⟨rfl, List.length_map _ _, fun i => ?_⟩, rfl⟩
  exact List.getElem?_map extract_search_item rs i

/-- Claim C7.  When the destination fails validation the agent returns
the "Invalid destination" error having made no outbound call besides that
validation; when the destination validates but a present source fails
validation it returns the "Invalid source location" error having made
only the two validation calls.  The call trace is part of the returned
pair, so the equality shows no web search, weather fetch, transport
search or generator call is made. -/
theorem claim7_thm :
    (∀ (env : AgentEnv) (req : TravelRequest),
      env.validateResult req.destination = false →
      generate_comprehensive_itinerary env req =
        (.failure "Invalid destination"
            (req.destination ++ " does not appear to be a valid location"),
          [.validate req.destination]))
    ∧ (∀ (env : AgentEnv) (req : TravelRequest),
        env.validateResult req.destination = true →
        req.source ≠ "" →
        env.validateResult req.source = false →
        generate_comprehensive_itinerary env req =
          (.failure "Invalid source location"
              (req.source ++ " does not appear to be a valid location"),
            [.validate req.destination, .validate req.source])) := by
  constructor
  · intro env req h
    simp [generate_comprehensive_itinerary, h]
  · intro env req h1 h2 h3
    simp [generate_comprehensive_itinerary, h1, h2, h3]

/-- Claim C7, witness: a concrete environment rejecting every location,
and one accepting the destination but rejecting the source. -/
theorem claim7_witness :
    generate_comprehensive_itinerary
        ⟨fun _ => false, fun _ _ => [], fun _ _ => .error "w", fun _ _ _ _ => .ok "t"⟩
        ⟨"", "Atlantis", 3000, 5, ["Food"], "Budget", ""⟩ =
      (.failure "Invalid destination"
          ("Atlantis" ++ " does not appear to be a valid location"),
        [.validate "Atlantis"])
    ∧ generate_comprehensive_itinerary
        ⟨fun loc => loc = "Paris", fun _ _ => [], fun _ _ => .error "w", fun _ _ _ _ => .ok "t"⟩
        ⟨"Mu", "Paris", 3000, 5, ["Food"], "Budget", ""⟩ =
      (.failure "Invalid source location"
          ("Mu" ++ " does not appear to be a valid location"),
        [.validate "Paris", .validate "Mu"]) :=
  ⟨claim7_thm.1 _ _ rfl,
   claim7_thm.2 _ _ (by decide) (by decide) (by decide)⟩

/-- When the guards pass and no source is given, the agent runs the
web-search, weather and generator pipeline with empty transport
options. -/
lemma itinerary_no_source (env : AgentEnv) (req : TravelRequest)
    (h1 : env.validateResult req.destination = true) (hsrc : req.source = "") :
    generate_comprehensive_itinerary env req =
      (match env.generateResult req (env.weatherResult req.destination req.duration)
          (env.searchResult (guideQuery req) 5) [] with
        | .ok text =>
          ItineraryOutcome.success text (env.searchResult (guideQuery req) 5)
            (env.weatherResult req.destination req.duration) []
        | .error e2 => .failure "Itinerary generation failed" e2,
       [.validate req.destination, .webSearch (guideQuery req) 5,
        .weather req.destination req.duration, .generate]) := by
  rcases hgen : env.generateResult req (env.weatherResult req.destination req.duration)
      (env.searchResult (guideQuery req) 5) [] with e2 | text <;>
    simp [generate_comprehensive_itinerary, h1, hsrc, hgen]

/-- When the guards pass and a source is given, the agent runs the
pipeline with the transport search included. -/
lemma itinerary_with_source (env : AgentEnv) (req : TravelRequest)
    (h1 : env.validateResult req.destination = true) (hsrc : req.source ≠ "")
    (h2 : env.validateResult req.source = true) :
    generate_comprehensive_itinerary env req =
      (match env.generateResult req (env.weatherResult req.destination req.duration)
          (env.searchResult (guideQuery req) 5)
          (env.searchResult (transportQuery req.source req.destination) 3) with
        | .ok text =>
          ItineraryOutcome.success text (env.searchResult (guideQuery req) 5)
            (env.weatherResult req.destination req.duration)
            (env.searchResult (transportQuery req.source req.destination) 3)
        | .error e2 => .failure "Itinerary generation failed" e2,
       [.validate req.destination, .validate req.source, .webSearch (guideQuery req) 5,
        .webSearch (transportQuery req.source req.destination) 3,
        .weather req.destination req.duration, .generate]) := by
  rcases hgen : env.generateResult req (env.weatherResult req.destination req.duration)
      (env.searchResult (guideQuery req) 5)
      (env.searchResult (transportQuery req.source req.destination) 3) with e2 | text <;>
    simp [generate_comprehensive_itinerary, h1, hsrc, h2, hgen]

/-- Claim C6.  When both locations validate and the weather fetch or
summarization fails, the generator is still invoked and, when it
succeeds, the agent returns a success outcome whose weather field is the
error object, with the itinerary text, web search context and transport
options populated; moreover any failure outcome comes from a failed
validation or a failed generator call, never from the weather failure
alone. -/
theorem claim6_thm :
    (∀ (env : AgentEnv) (req : TravelRequest) (e text : String),
      env.validateResult req.destination = true →
      (req.source = "" ∨ env.validateResult req.source = true) →
      env.weatherResult req.destination req.duration = .error e →
      env.generateResult req (.error e)
          (env.searchResult (guideQuery req) 5)
          (if req.source ≠ "" then
            env.searchResult (transportQuery req.source req.destination) 3
          else []) = .ok text →
      (generate_comprehensive_itinerary env req).1 =
        .success text (env.searchResult (guideQuery req) 5) (.error e)
          (if req.source ≠ "" then
            env.searchResult (transportQuery req.source req.destination) 3
          else [])
      ∧ AgentCall.generate ∈ (generate_comprehensive_itinerary env req).2)
    ∧ (∀ (env : AgentEnv) (req : TravelRequest) (err det : String),
        env.validateResult req.destination = true →
        (req.source = "" ∨ env.validateResult req.source = true) →
        (generate_comprehensive_itinerary env req).1 = .failure err det →
        ∃ e, env.generateResult req (env.weatherResult req.destination req.duration)
            (env.searchResult (guideQuery req) 5)
            (if req.source ≠ "" then
              env.searchResult (transportQuery req.source req.destination) 3
            else []) = .error e) := by
  constructor
  · intro env req e text h1 h2 hw hg
    by_cases hsrc : req.source = ""
    · have hgg : env.generateResult req (.error e)
          (env.searchResult (guideQuery req) 5) [] = .ok text := by
        rw [← hg]
        simp [hsrc]
      rw [itinerary_no_source env req h1 hsrc, hw, hgg]
      exact ⟨by simp [hsrc], by simp⟩
    · have h2t : env.validateResult req.source = true := by
        rcases h2 with h2 | h2
        · exact absurd h2 hsrc
        · exact h2
      have hgg : env.generateResult req (.error e)
          (env.searchResult (guideQuery req) 5)
          (env.searchResult (transportQuery req.source req.destination) 3) = .ok text := by
        rw [← hg]
        simp [hsrc]
      rw [itinerary_with_source env req h1 hsrc h2t, hw, hgg]
      exact ⟨by simp [hsrc], by simp⟩
  · intro env req err det h1 h2 h
    by_cases hsrc : req.source = ""
    · rw [itinerary_no_source env req h1 hsrc] at h
      cases hgen : env.generateResult req (env.weatherResult req.destination req.duration)
          (env.searchResult (guideQuery req) 5) [] with
      | error e2 =>
        refine ⟨e2, ?_⟩
        simpa [hsrc] using hgen
      | ok t2 =>
        rw [hgen] at h
        simp at h
    · have h2t : env.validateResult req.source = true := by
        rcases h2 with h2 | h2
        · exact absurd h2 hsrc
        · exact h2
      rw [itinerary_with_source env req h1 hsrc h2t] at h
      cases hgen : env.generateResult req (env.weatherResult req.destination req.duration)
          (env.searchResult (guideQuery req) 5)
          (env.searchResult (transportQuery req.source req.destination) 3) with
      | error e2 =>
        refine ⟨e2, ?_⟩
        simpa [hsrc] using hgen
      | ok t2 =>
        rw [hgen] at h
        simp at h

/-- Claim C6, witness: a concrete environment whose weather fetch fails
while validation and generation succeed. -/
theorem claim6_witness :
    ((⟨fun _ => true, fun _ _ => [], fun _ _ => .error "Failed to fetch weather data",
        fun _ _ _ _ => .ok "plan"⟩ : AgentEnv).validateResult "Paris" = true
      ∧ (generate_comprehensive_itinerary
          ⟨fun _ => true, fun _ _ => [], fun _ _ => .error "Failed to fetch weather data",
            fun _ _ _ _ => .ok "plan"⟩
          ⟨"", "Paris", 3000, 5, ["Food"], "Budget", ""⟩).1 =
        .success "plan" [] (.error "Failed to fetch weather data") []) := by
  have h := (claim6_thm.1
    ⟨fun _ => true, fun _ _ => [], fun _ _ => .error "Failed to fetch weather data",
      fun _ _ _ _ => .ok "plan"⟩
    ⟨"", "Paris", 3000, 5, ["Food"], "Budget", ""⟩
    "Failed to fetch weather data" "plan" rfl (Or.inl rfl) rfl rfl).1
  refine ⟨rfl, ?_⟩
  rw [h]
  rfl

/-! ## Nonemptiness lemmas for the conditions summary -/

lemma bumpCount_ne_nil (counts : List (String × ℕ)) (c : String) :
    bumpCount counts c ≠ [] := by
  cases counts with
  | nil => simp [bumpCount]
  | cons p rest =>
    obtain ⟨k, n⟩ := p
    simp only [bumpCount]
    split_ifs <;> simp

lemma foldl_bumpCount_ne_nil (l : List String) :
    ∀ acc : List (String × ℕ), acc ≠ [] → l.foldl bumpCount acc ≠ [] := by
  induction l with
  | nil => exact fun acc h => h
  | cons c cs ih =>
    intro acc _
    rw [List.foldl_cons]
    exact ih (bumpCount acc c) (bumpCount_ne_nil acc c)

lemma conditionCounts_ne_nil (l : List String) (h : l ≠ []) : conditionCounts l ≠ [] := by
  cases l with
  | nil => exact absurd rfl h
  | cons c cs =>
    unfold conditionCounts
    rw [List.foldl_cons]
    exact foldl_bumpCount_ne_nil cs (bumpCount [] c) (bumpCount_ne_nil [] c)

lemma insertByCountDesc_ne_nil (p : String × ℕ) (l : List (String × ℕ)) :
    insertByCountDesc p l ≠ [] := by
  cases l with
  | nil => simp [insertByCountDesc]
  | cons q qs =>
    simp only [insertByCountDesc]
    split_ifs <;> simp

lemma foldl_insert_ne_nil (l : List (String × ℕ)) :
    ∀ acc : List (String × ℕ), acc ≠ [] →
      l.foldl (fun acc p => insertByCountDesc p acc) acc ≠ [] := by
  induction l with
  | nil => exact fun acc h => h
  | cons p ps ih =>
    intro acc _
    rw [List.foldl_cons]
    exact ih _ (insertByCountDesc_ne_nil p acc)

lemma sortByCountDesc_ne_nil (l : List (String × ℕ)) (h : l ≠ []) :
    sortByCountDesc l ≠ [] := by
  cases l with
  | nil => exact absurd rfl h
  | cons p ps =>
    unfold sortByCountDesc
    rw [List.foldl_cons]
    exact foldl_insert_ne_nil ps _ (insertByCountDesc_ne_nil p [])

lemma summarize_conditions_isSome (l : List String) (h : l ≠ []) :
    ∃ s, summarize_conditions l = some s := by
  have hne : sortByCountDesc (conditionCounts l) ≠ [] :=
    sortByCountDesc_ne_nil _ (conditionCounts_ne_nil l h)
  rcases hs : sortByCountDesc (conditionCounts l) with _ | ⟨⟨c, k⟩, rest⟩
  · exact absurd hs hne
  · rcases rest with _ | ⟨q, rest2⟩
    · exact ⟨"Consistently " ++ c ++ " throughout your trip",
        by simp [summarize_conditions, hs]⟩
    · simp only [summarize_conditions, hs]
      split_ifs <;> exact ⟨_, rfl⟩

/-- Claim C5, counterexample.  With an empty forecast-day list (the
provider returned no days) every requested duration selects zero days and
`format_weather_summary` fails — in the source,
`sum(max_temps) / len(max_temps)` raises ZeroDivisionError — instead of
returning a summary, so the claim does not hold for every payload. -/
theorem claim5_counterexample :
    format_weather_summary ⟨⟨"Nowhere", "Atlantis"⟩, []⟩ 10 = none := rfl

/-- Claim C5, amended.  Whenever at least one day is selected, i.e.
`min duration (number of forecast days) ≥ 1`, `format_weather_summary`
returns a summary containing exactly `min duration (number of forecast
days)` daily entries and reporting that count, without error; the claim
fails only in the zero-day case, where the source raises
ZeroDivisionError. -/
theorem claim5_amended_thm (forecast : Forecast) (duration : ℕ)
    (h : 1 ≤ min duration forecast.forecastday.length) :
    ∃ s, format_weather_summary forecast duration = some s
      ∧ s.daily_forecasts.length = min duration forecast.forecastday.length
      ∧ s.forecast_days = min duration forecast.forecastday.length := by
  have hlen : ((forecast.forecastday.take
      (min duration forecast.forecastday.length)).map buildDaily).length
      = min duration forecast.forecastday.length := by
    rw [List.length_map, List.length_take]
    exact Nat.min_eq_left (Nat.min_le_right _ _)
  have hnz : ((forecast.forecastday.take
      (min duration forecast.forecastday.length)).map buildDaily).length ≠ 0 := by
    rw [hlen]
    omega
  have hcne : ((forecast.forecastday.take
      (min duration forecast.forecastday.length)).map buildDaily).map
        (fun d => d.condition) ≠ [] := by
    intro hc
    apply hnz
    simpa using congrArg List.length hc
  obtain ⟨cs, hcs⟩ := summarize_conditions_isSome _ hcne
  have hfmt : format_weather_summary forecast duration = some
      { location := forecast.location.name ++ ", " ++ forecast.location.country
        forecast_days := min duration forecast.forecastday.length
        avg_max_temp_c := (((forecast.forecastday.take
            (min duration forecast.forecastday.length)).map buildDaily).map
              (fun d => d.max_temp_c)).sum /
          (((((forecast.forecastday.take
            (min duration forecast.forecastday.length)).map buildDaily).map
              (fun d => d.max_temp_c)).length : ℚ))
        avg_min_temp_c := (((forecast.forecastday.take
            (min duration forecast.forecastday.length)).map buildDaily).map
              (fun d => d.min_temp_c)).sum /
          (((((forecast.forecastday.take
            (min duration forecast.forecastday.length)).map buildDaily).map
              (fun d => d.min_temp_c)).length : ℚ))
        conditions_summary := cs
        daily_forecasts := (forecast.forecastday.take
          (min duration forecast.forecastday.length)).map buildDaily } := by
    simp only [format_weather_summary]
    rw [if_neg hnz, hcs]
    rfl
  refine ⟨_, hfmt, ?_, ?_⟩
  · simp
  · rfl

/-- Claim C5, witness: a five-day forecast with a requested duration of
ten yields exactly five daily entries and no error. -/
theorem claim5_witness :
    (1 ≤ min 10 (Forecast.forecastday ⟨⟨"Paris", "France"⟩,
      [⟨"d1", "Sunny", 20, 10, 0⟩, ⟨"d2", "Sunny", 21, 11, 0⟩, ⟨"d3", "Rain", 18, 9, 7⟩,
       ⟨"d4", "Cloudy", 19, 10, 1⟩, ⟨"d5", "Sunny", 22, 12, 0⟩]⟩).length)
    ∧ ∃ s, format_weather_summary ⟨⟨"Paris", "France"⟩,
      [⟨"d1", "Sunny", 20, 10, 0⟩, ⟨"d2", "Sunny", 21, 11, 0⟩, ⟨"d3", "Rain", 18, 9, 7⟩,
       ⟨"d4", "Cloudy", 19, 10, 1⟩, ⟨"d5", "Sunny", 22, 12, 0⟩]⟩ 10 = some s
      ∧ s.daily_forecasts.length = 5
      ∧ s.forecast_days = 5 :=
  ⟨by decide, claim5_amended_thm _ 10 (by decide)⟩

/-! ## Permutation, sortedness and stability of the count sort -/

lemma insertByCountDesc_perm (p : String × ℕ) (l : List (String × ℕ)) :
    (insertByCountDesc p l).Perm (p :: l) := by
  induction l with
  | nil => simp [insertByCountDesc]
  | cons q qs ih =>
    simp only [insertByCountDesc]
    split_ifs with hpq
    · exact (ih.cons q).trans (List.Perm.swap p q qs)
    · exact List.Perm.refl _

lemma foldl_insert_perm (l : List (String × ℕ)) :
    ∀ acc : List (String × ℕ),
      (l.foldl (fun acc p => insertByCountDesc p acc) acc).Perm (l ++ acc) := by
  induction l with
  | nil => intro acc; simp
  | cons p ps ih =>
    intro acc
    rw [List.foldl_cons]
    refine (ih _).trans ?_
    exact (List.Perm.append_left ps (insertByCountDesc_perm p acc)).trans List.perm_middle

lemma sortByCountDesc_perm (l : List (String × ℕ)) : (sortByCountDesc l).Perm l := by
  have h := foldl_insert_perm l []
  simpa [sortByCountDesc] using h

lemma insertByCountDesc_pairwise (p : String × ℕ) (l : List (String × ℕ))
    (h : l.Pairwise (fun a b => b.2 ≤ a.2)) :
    (insertByCountDesc p l).Pairwise (fun a b => b.2 ≤ a.2) := by
  induction l with
  | nil => simp [insertByCountDesc]
  | cons q qs ih =>
    rw [List.pairwise_cons] at h
    obtain ⟨hq, hqs⟩ := h
    simp only [insertByCountDesc]
    split_ifs with hpq
    · rw [List.pairwise_cons]
      refine ⟨?_, ih hqs⟩
      intro b hb
      rcases List.mem_cons.mp ((insertByCountDesc_perm p qs).mem_iff.mp hb) with rfl | hb
      · exact hpq
      · exact hq b hb
    · push_neg at hpq
      rw [List.pairwise_cons]
      constructor
      · intro b hb
        rcases List.mem_cons.mp hb with rfl | hb
        · exact le_of_lt hpq
        · exact le_trans (hq b hb) (le_of_lt hpq)
      · exact List.pairwise_cons.mpr ⟨hq, hqs⟩

lemma foldl_insert_pairwise (l : List (String × ℕ)) :
    ∀ acc : List (String × ℕ), acc.Pairwise (fun a b => b.2 ≤ a.2) →
      (l.foldl (fun acc p => insertByCountDesc p acc) acc).Pairwise
        (fun a b => b.2 ≤ a.2) := by
  induction l with
  | nil => exact fun acc h => h
  | cons p ps ih =>
    intro acc h
    rw [List.foldl_cons]
    exact ih _ (insertByCountDesc_pairwise p acc h)

lemma sortByCountDesc_pairwise (l : List (String × ℕ)) :
    (sortByCountDesc l).Pairwise (fun a b => b.2 ≤ a.2) :=
  foldl_insert_pairwise l [] List.Pairwise.nil

lemma insertByCountDesc_filter (p : String × ℕ) (l : List (String × ℕ))
    (h : l.Pairwise (fun a b => b.2 ≤ a.2)) (n : ℕ) :
    (insertByCountDesc p l).filter (fun q => q.2 == n) =
      l.filter (fun q => q.2 == n) ++ (if p.2 == n then [p] else []) := by
  induction l with
  | nil =>
    cases hpn : (p.2 == n) <;> simp [insertByCountDesc, List.filter_cons, hpn]
  | cons q qs ih =>
    rw [List.pairwise_cons] at h
    obtain ⟨hq, hqs⟩ := h
    by_cases hpq : p.2 ≤ q.2
    · rw [show insertByCountDesc p (q :: qs) = q :: insertByCountDesc p qs from by
        simp [insertByCountDesc, hpq]]
      rw [List.filter_cons, List.filter_cons, ih hqs]
      generalize (if (p.2 == n) = true then [p] else []) = T
      cases hqn : (q.2 == n) <;> simp [hqn]
    · rw [show insertByCountDesc p (q :: qs) = p :: q :: qs from by
        simp [insertByCountDesc, hpq]]
      push_neg at hpq
      cases hpn : (p.2 == n) with
      | false => simp [List.filter_cons, hpn]
      | true =>
        have hpn2 : p.2 = n := eq_of_beq hpn
        have hfil : (q :: qs).filter (fun r => r.2 == n) = [] := by
          rw [List.filter_eq_nil_iff]
          intro b hb
          rcases List.mem_cons.mp hb with rfl | hb
          · simp only [beq_iff_eq]
            omega
          · have hbq := hq b hb
            simp only [beq_iff_eq]
            omega
        simp [List.filter_cons, hpn, hfil]

lemma foldl_insert_filter (l : List (String × ℕ)) :
    ∀ acc : List (String × ℕ), acc.Pairwise (fun a b => b.2 ≤ a.2) → ∀ n : ℕ,
      (l.foldl (fun acc p => insertByCountDesc p acc) acc).filter (fun q => q.2 == n) =
        acc.filter (fun q => q.2 == n) ++ l.filter (fun q => q.2 == n) := by
  induction l with
  | nil =>
    intro acc _ n
    simp
  | cons p ps ih =>
    intro acc h n
    rw [List.foldl_cons, ih _ (insertByCountDesc_pairwise p acc h) n,
      insertByCountDesc_filter p acc h n, List.filter_cons]
    cases hpn : (p.2 == n) <;> simp [hpn]

/-- Stability of the count sort: entries of any fixed count keep their
relative (first-encounter) order. -/
lemma sortByCountDesc_filter (l : List (String × ℕ)) (n : ℕ) :
    (sortByCountDesc l).filter (fun q => q.2 == n) = l.filter (fun q => q.2 == n) := by
  have h := foldl_insert_filter l [] List.Pairwise.nil n
  simpa [sortByCountDesc] using h

/-! ## The dict of counts as distinct keys paired with occurrence counts -/

lemma distinct_foldl_mem (l : List String) :
    ∀ (acc : List String) (x : String),
      x ∈ l.foldl (fun acc c => if c ∈ acc then acc else acc ++ [c]) acc
        ↔ x ∈ acc ∨ x ∈ l := by
  induction l with
  | nil =>
    intro acc x
    simp
  | cons c cs ih =>
    intro acc x
    rw [List.foldl_cons, ih]
    by_cases h : c ∈ acc
    · rw [if_pos h]
      constructor
      · rintro (hx | hx)
        · exact Or.inl hx
        · exact Or.inr (List.mem_cons_of_mem c hx)
      · rintro (hx | hx)
        · exact Or.inl hx
        · rcases List.mem_cons.mp hx with rfl | hx
          · exact Or.inl h
          · exact Or.inr hx
    · rw [if_neg h]
      simp only [List.mem_append, List.mem_singleton, List.mem_cons]
      tauto

lemma distinctInOrder_mem (l : List String) (x : String) :
    x ∈ distinctInOrder l ↔ x ∈ l := by
  have h := distinct_foldl_mem l [] x
  simpa [distinctInOrder] using h

lemma distinct_foldl_nodup (l : List String) :
    ∀ acc : List String, acc.Nodup →
      (l.foldl (fun acc c => if c ∈ acc then acc else acc ++ [c]) acc).Nodup := by
  induction l with
  | nil => exact fun acc h => h
  | cons c cs ih =>
    intro acc h
    rw [List.foldl_cons]
    apply ih
    by_cases hc : c ∈ acc
    · rwa [if_pos hc]
    · rw [if_neg hc]
      rw [List.nodup_append]
      exact ⟨h, List.nodup_singleton c, by simpa [List.disjoint_singleton] using hc⟩

lemma distinctInOrder_nodup (l : List String) : (distinctInOrder l).Nodup :=
  distinct_foldl_nodup l [] List.Pairwise.nil

lemma distinctInOrder_append_singleton (h : List String) (c : String) :
    distinctInOrder (h ++ [c]) =
      if c ∈ distinctInOrder h then distinctInOrder h else distinctInOrder h ++ [c] := by
  simp [distinctInOrder, List.foldl_append]

lemma bumpCount_map (ks : List String) (f : String → ℕ) (c : String) (hnd : ks.Nodup) :
    bumpCount (ks.map (fun k => (k, f k))) c =
      if c ∈ ks then ks.map (fun k => (k, if k = c then f k + 1 else f k))
      else ks.map (fun k => (k, f k)) ++ [(c, 1)] := by
  induction ks with
  | nil => simp [bumpCount]
  | cons a ks ih =>
    rw [List.nodup_cons] at hnd
    obtain ⟨ha, hnd2⟩ := hnd
    rw [List.map_cons]
    by_cases hac : a = c
    · subst hac
      rw [if_pos (List.mem_cons_self a ks), List.map_cons, if_pos rfl,
        show bumpCount ((a, f a) :: ks.map (fun k => (k, f k))) a
          = (a, f a + 1) :: ks.map (fun k => (k, f k)) from by simp [bumpCount]]
      congr 1
      apply List.map_congr_left
      intro k hk
      have hka : ¬ k = a := fun he => ha (he ▸ hk)
      simp [hka]
    · rw [show bumpCount ((a, f a) :: ks.map (fun k => (k, f k))) c
          = (a, f a) :: bumpCount (ks.map (fun k => (k, f k))) c from by
            simp [bumpCount, hac]]
      rw [ih hnd2]
      by_cases hc : c ∈ ks
      · rw [if_pos hc, if_pos (List.mem_cons_of_mem a hc), List.map_cons, if_neg hac]
      · have hcak : c ∉ a :: ks := by
          intro hmem
          rcases List.mem_cons.mp hmem with he | he
          · exact hac he.symm
          · exact hc he
        rw [if_neg hc, if_neg hcak, List.cons_append]

lemma foldl_bump_eq (l : List String) :
    ∀ h : List String,
      l.foldl bumpCount ((distinctInOrder h).map (fun k => (k, h.count k))) =
        (distinctInOrder (h ++ l)).map (fun k => (k, (h ++ l).count k)) := by
  induction l with
  | nil =>
    intro h
    simp
  | cons c cs ih =>
    intro h
    rw [List.foldl_cons]
    have hstep : bumpCount ((distinctInOrder h).map (fun k => (k, h.count k))) c =
        (distinctInOrder (h ++ [c])).map (fun k => (k, (h ++ [c]).count k)) := by
      rw [bumpCount_map _ _ _ (distinctInOrder_nodup h), distinctInOrder_append_singleton]
      by_cases hc : c ∈ distinctInOrder h
      · rw [if_pos hc, if_pos hc]
        apply List.map_congr_left
        intro k hk
        by_cases hkc : k = c
        · subst hkc
          simp [List.count_append, List.count_singleton]
        · have hck : c ≠ k := Ne.symm hkc
          simp [List.count_append, List.count_singleton, hck, hkc]
      · rw [if_neg hc, if_neg hc, List.map_append]
        have hch : c ∉ h := fun hh => hc ((distinctInOrder_mem h c).mpr hh)
        congr 1
        · apply List.map_congr_left
          intro k hk
          have hkc : ¬ k = c := fun he => hc (he ▸ hk)
          have hck : c ≠ k := Ne.symm hkc
          simp [List.count_append, List.count_singleton, hck]
        · simp [List.count_append, List.count_singleton,
            List.count_eq_zero.mpr hch]
    rw [hstep, ih (h ++ [c]), List.append_assoc, List.singleton_append]

/-- The Python dict `condition_counts` lists the distinct conditions in
first-encounter order, each paired with its number of occurrences. -/
lemma conditionCounts_eq (l : List String) :
    conditionCounts l = (distinctInOrder l).map (fun c => (c, l.count c)) := by
  have h := foldl_bump_eq l []
  simpa [conditionCounts, distinctInOrder] using h

/-- Claim C4.  `_summarize_conditions` on a non-empty list behaves as
specified: the dict of counts pairs the distinct conditions in
first-encounter order with their occurrence counts; the sort is a
permutation of it, ordered by descending count, and stable (entries of
any fixed count keep their original relative order, breaking frequency
ties by first encounter); with exactly one distinct condition the result
is "Consistently {condition} throughout your trip"; with several, the
head of the sort is a condition of maximal count and the result is
"Mostly {main} with some {others}" when its frequency is at least half,
else "Variable conditions including {top three}"; and the concrete
examples evaluate as the spec states. -/
theorem claim4_thm :
    (∀ l : List String,
      conditionCounts l = (distinctInOrder l).map (fun c => (c, l.count c)))
    ∧ (∀ pl : List (String × ℕ),
        (sortByCountDesc pl).Perm pl
        ∧ (sortByCountDesc pl).Pairwise (fun a b => b.2 ≤ a.2)
        ∧ ∀ n : ℕ, (sortByCountDesc pl).filter (fun q => q.2 == n) =
            pl.filter (fun q => q.2 == n))
    ∧ (∀ (l : List String) (c : String), distinctInOrder l = [c] →
        summarize_conditions l = some ("Consistently " ++ c ++ " throughout your trip"))
    ∧ (∀ (l : List String) (main : String) (k : ℕ) (rest : List (String × ℕ)),
        sortByCountDesc (conditionCounts l) = (main, k) :: rest → rest ≠ [] →
          k = l.count main
          ∧ (∀ c ∈ l, l.count c ≤ k)
          ∧ summarize_conditions l =
              (if ((k : ℚ) / (l.length : ℚ)) ≥ 1/2 then
                some ("Mostly " ++ main ++ " with some " ++ commaJoin (rest.map Prod.fst))
              else
                some ("Variable conditions including " ++
                  commaJoin ((((main, k) :: rest).take 3).map Prod.fst))))
    ∧ summarize_conditions ["Sunny", "Sunny", "Sunny"] =
        some "Consistently Sunny throughout your trip"
    ∧ summarize_conditions ["Sunny", "Sunny", "Rain", "Cloudy"] =
        some "Mostly Sunny with some Rain, Cloudy"
    ∧ summarize_conditions ["Sunny", "Rain", "Cloudy"] =
        some "Variable conditions including Sunny, Rain, Cloudy"
    ∧ summarize_conditions ["Cloudy", "Rain", "Rain", "Snow", "Snow", "Snow", "Mist"] =
        some "Variable conditions including Snow, Rain, Cloudy" := by
  refine ⟨conditionCounts_eq,
    fun pl => ⟨sortByCountDesc_perm pl, sortByCountDesc_pairwise pl,
      sortByCountDesc_filter pl⟩,
    ?_, ?_, ?_, ?_, ?_, ?_⟩
  · intro l c h
    have hcc : conditionCounts l = [(c, l.count c)] := by
      rw [conditionCounts_eq, h]
      rfl
    have hsort : sortByCountDesc (conditionCounts l) = [(c, l.count c)] := by
      rw [hcc]
      rfl
    simp [summarize_conditions, hsort]
  · intro l main k rest hs hr
    have hperm := sortByCountDesc_perm (conditionCounts l)
    rw [hs] at hperm
    have hmem : (main, k) ∈ conditionCounts l :=
      hperm.mem_iff.mp (List.mem_cons_self _ _)
    rw [conditionCounts_eq] at hmem
    obtain ⟨c0, hc0, heq⟩ := List.mem_map.mp hmem
    rw [Prod.ext_iff] at heq
    obtain ⟨he1, he2⟩ := heq
    dsimp at he1 he2
    subst he1
    refine ⟨he2.symm, ?_, ?_⟩
    · intro c hc
      have hcd : c ∈ distinctInOrder l := (distinctInOrder_mem l c).mpr hc
      have hmem2 : (c, l.count c) ∈ (c0, k) :: rest :=
        hperm.mem_iff.mpr (by
          rw [conditionCounts_eq]
          exact List.mem_map.mpr ⟨c, hcd, rfl⟩)
      rcases List.mem_cons.mp hmem2 with he | hr2
      · rw [Prod.ext_iff] at he
        exact le_of_eq he.2
      · have hpw := sortByCountDesc_pairwise (conditionCounts l)
        rw [hs, List.pairwise_cons] at hpw
        exact hpw.1 _ hr2
    · obtain ⟨q, rest2, rfl⟩ := List.exists_cons_of_ne_nil hr
      simp only [summarize_conditions, hs]
  · have h : sortByCountDesc (conditionCounts ["Sunny", "Sunny", "Sunny"]) =
        [("Sunny", 3)] := by decide
    simp [summarize_conditions, h]
  · have h : sortByCountDesc (conditionCounts ["Sunny", "Sunny", "Rain", "Cloudy"]) =
        [("Sunny", 2), ("Rain", 1), ("Cloudy", 1)] := by decide
    simp only [summarize_conditions, h]
    norm_num
    decide
  · have h : sortByCountDesc (conditionCounts ["Sunny", "Rain", "Cloudy"]) =
        [("Sunny", 1), ("Rain", 1), ("Cloudy", 1)] := by decide
    simp only [summarize_conditions, h]
    norm_num
    decide
  · have h : sortByCountDesc (conditionCounts
        ["Cloudy", "Rain", "Rain", "Snow", "Snow", "Snow", "Mist"]) =
        [("Snow", 3), ("Rain", 2), ("Cloudy", 1), ("Mist", 1)] := by decide
    simp only [summarize_conditions, h]
    norm_num
    decide

/-- Claim C4, witness: the single-distinct-condition case instantiated at
a concrete input through the theorem. -/
theorem claim4_witness :
    distinctInOrder ["Sunny", "Sunny", "Sunny"] = ["Sunny"]
    ∧ summarize_conditions ["Sunny", "Sunny", "Sunny"] =
        some ("Consistently " ++ "Sunny" ++ " throughout your trip") :=
  ⟨by decide, claim4_thm.2.2.1 ["Sunny", "Sunny", "Sunny"] "Sunny" (by decide)⟩

end TravelCompanion
